import Mathlib

/-!
# Verification of the INGRES virtual-assistant retrieval core

Shallow embedding of the query-processing core of the INGRES virtual
assistant (`app/rag_engine.py` and `app/vector_store.py`), together with
theorems settling the specified properties of intent classification,
entity extraction, retrieval orchestration, context building, confidence
scoring and vector-index search/persistence.

Modelling conventions:
* Python strings are Lean `String`s; `str.lower()`, substring `in`,
  slicing `[:n]`, `strip()` are embedded as executable functions below.
* Python floats are modelled as exact rationals (`ℚ`); `round(x, 2)` is
  embedded as round-half-to-even at two decimals on `ℚ`.
* External collaborators (MongoDB, the SentenceTransformer embedder, the
  FAISS native search, the Gemini generation backend, the filesystem) are
  passed in as explicit oracle parameters; fallible ones return `Except`.
* `datetime.utcnow()` differences are abstracted as explicit elapsed-time
  parameters (one per measurement site).
-/

namespace Ingres

/-! ### Python string primitives -/

/-- `pfxAt needle hay`: `needle` is a leading prefix of `hay` (char lists). -/
def pfxAt : List Char → List Char → Bool
  | [], _ => true
  | _ :: _, [] => false
  | c :: cs, d :: ds => c == d && pfxAt cs ds

/-- Substring containment on char lists, as Python's `in` operator. -/
def subIn (needle : List Char) : List Char → Bool
  | [] => pfxAt needle []
  | d :: ds => pfxAt needle (d :: ds) || subIn needle ds

/-- Python `needle in hay` for strings. -/
def pyIn (needle hay : String) : Bool := subIn needle.data hay.data

/-- Index of the first occurrence of `needle`, as Python `str.find`. -/
def subFindAux (needle : List Char) : List Char → ℕ → Option ℕ
  | [], i => if pfxAt needle [] then some i else none
  | d :: ds, i => if pfxAt needle (d :: ds) then some i else subFindAux needle ds (i + 1)

/-- Position of the first match of `needle` in `hay` (`none` if absent). -/
def pyFind (needle hay : String) : Option ℕ := subFindAux needle.data hay.data 0

/-- Python `str.lower()` (the queries here are ASCII); `str.map` over the
code points, written on `data` so that it evaluates by kernel reduction. -/
def pyLower (s : String) : String := ⟨s.data.map Char.toLower⟩

/-- Python slicing `s[:n]` (by code points). -/
def pySlice (s : String) (n : ℕ) : String := ⟨s.data.take n⟩

/-- Python `str.isdigit()` restricted to ASCII digits, as used on record values. -/
def pyIsdigit (s : String) : Bool := !s.data.isEmpty && s.data.all Char.isDigit

/-! ### Python values

Mongo records and response sources are heterogeneous Python dicts; their
values are modelled by `PyVal`. -/

inductive PyVal where
  | vstr : String → PyVal
  | vint : ℤ → PyVal
  | vnum : ℚ → PyVal
  | vnone : PyVal
  | vdict : List (String × PyVal) → PyVal
  | vlist : List PyVal → PyVal

/-- Python `str(value)`. Rendering of numbers and containers is abstracted
(`toString` of the exact rational stands in for `float.__str__`); no claim
depends on the concrete digits produced here. -/
def pyStr : PyVal → String
  | .vstr s => s
  | .vint n => toString n
  | .vnum q => toString q
  | .vnone => "None"
  | .vdict _ => "<dict>"
  | .vlist _ => "<list>"

/-- A structured MongoDB record: an ordered key/value map. -/
def SItem := List (String × PyVal)

/-- Python `item.get(key, default)` on a record. -/
def dictGet (item : SItem) (key : String) (dflt : PyVal) : PyVal :=
  match item.find? (fun kv => kv.1 == key) with
  | some kv => kv.2
  | none => dflt

/-! ### Entity vocabulary (`QueryProcessor.__init__`, `entities_patterns`) -/

/-- `entities_patterns["states"]`. -/
def statesVocab : List String :=
  ["andhra pradesh", "arunachal pradesh", "assam", "bihar", "chhattisgarh", "goa",
   "gujarat", "haryana", "himachal pradesh", "jharkhand", "karnataka", "kerala",
   "madhya pradesh", "maharashtra", "manipur", "meghalaya", "mizoram", "nagaland",
   "odisha", "punjab", "rajasthan", "sikkim", "tamil nadu", "telangana", "tripura",
   "uttar pradesh", "uttarakhand", "west bengal", "delhi", "chandigarh",
   "dadra and nagar haveli", "daman and diu", "lakshadweep", "puducherry",
   "andaman and nicobar islands", "jammu and kashmir", "ladakh"]

/-- `entities_patterns["metrics"]`. -/
def metricsVocab : List String :=
  ["rainfall", "ground water extraction", "groundwater extraction",
   "annual extractable ground water resources", "water resources", "precipitation",
   "aquifer", "bore well", "tube well"]

/-- `entities_patterns["years"]`. -/
def yearsVocab : List String := ["2024", "2025", "2023", "2022", "2021"]

/-- The three entity lists returned by `_extract_entities`. -/
structure Entities where
  states : List String
  metrics : List String
  years : List String
deriving DecidableEq, Repr

/-- `QueryProcessor._extract_entities`: each Python `for`-loop over a fixed
vocabulary appending the terms contained in the lowercased query is the
filter of that vocabulary list (vocabulary iteration order is preserved). -/
def extract_entities (query : String) : Entities :=
  let ql := pyLower query
  { states := statesVocab.filter fun s => pyIn s ql
    metrics := metricsVocab.filter fun m => pyIn m ql
    years := yearsVocab.filter fun y => pyIn y ql }

/-! ### Intent classification (`QueryProcessor._classify_intent`) -/

def helpPatterns : List String :=
  ["help", "how to use", "guide", "tutorial", "assistance", "support"]

def helpQuestions : List String :=
  ["how to use this", "how do i", "can you help", "need help", "how to"]

def greetingPatterns : List String :=
  ["hi", "hello", "hey", "namaste", "good morning", "good evening", "greetings"]

def farewellPatterns : List String :=
  ["bye", "goodbye", "see you", "farewell", "take care"]

def comparisonPatterns : List String :=
  ["compare", " vs ", " versus ", "difference between", "compare between"]

def dataRequestPatterns : List String :=
  ["what is rainfall", "rainfall in", "rainfall data", "rainfall for",
   "what is groundwater", "groundwater in", "groundwater data", "groundwater for",
   "show me", "give me", "tell me about", "data for", "information for",
   "statistics for", "stats for", "how much rain", "rain in"]

def statsKeywords : List String :=
  ["rainfall", "groundwater", "extraction", "resources", "data", "statistics", "mm", "cubic"]

def explanationPatterns : List String :=
  ["how does", "what does", "explain", "definition of", "meaning of",
   "what are the", "how do", "why does", "process of"]

def definitionPatterns : List String :=
  ["what is groundwater extraction", "what is water cycle", "what is"]

/-- Condition of the `help` branch of `_classify_intent`. -/
def helpMatch (ql : String) : Bool :=
  helpPatterns.any (fun p => pyIn p ql) || helpQuestions.any (fun p => pyIn p ql)

/-- `QueryProcessor._classify_intent`, rule for rule in source order. -/
def classify_intent (query : String) : String :=
  let ql := pyLower query
  if helpMatch ql then "help"
  else if greetingPatterns.any (fun p => pyIn p ql) then "greeting"
  else if farewellPatterns.any (fun p => pyIn p ql) then "farewell"
  else if comparisonPatterns.any (fun p => pyIn p ql) then "comparison"
  else if dataRequestPatterns.any (fun p => pyIn p ql) then "statistics"
  else
    let stateMentioned := statesVocab.any fun s => pyIn s ql
    let metricMentioned := metricsVocab.any fun m => pyIn m ql
    if stateMentioned && (metricMentioned || statsKeywords.any fun k => pyIn k ql) then
      "statistics"
    else if definitionPatterns.any (fun p => pyIn p ql) &&
        (!stateMentioned && !(["data", "in ", "for "].any fun w => pyIn w ql)) then
      "explanation"
    else if explanationPatterns.any (fun p => pyIn p ql) then
      if !(dataRequestPatterns.any fun p => pyIn p ql) then "explanation"
      else "statistics"
    else if ["rainfall", "groundwater", "extraction", "data"].any (fun k => pyIn k ql) then
      "statistics"
    else "general"

/-! ### Confidence scoring (`QueryProcessor._calculate_confidence`) -/

/-- Round to the nearest integer, ties to even (Python `round` on exact values). -/
def rte (q : ℚ) : ℤ :=
  if q - (⌊q⌋ : ℚ) < 1 / 2 then ⌊q⌋
  else if 1 / 2 < q - (⌊q⌋ : ℚ) then ⌊q⌋ + 1
  else if 2 ∣ ⌊q⌋ then ⌊q⌋ else ⌊q⌋ + 1

/-- Python `round(x, 2)` modelled exactly on rationals. -/
def pyRound2 (q : ℚ) : ℚ := (rte (q * 100) : ℚ) / 100

/-- `QueryProcessor._calculate_confidence`. -/
def calculate_confidence (context answer : String) : ℚ :=
  if context == "" || answer == "" then 1 / 10
  else
    let contextScore := min ((context.length : ℚ) / 1000) 1
    let answerScore := min ((answer.length : ℚ) / 200) 1
    let spec1 : ℚ := if answer.data.any Char.isDigit then 3 / 10 else 0
    let spec2 : ℚ :=
      if (["state", "rainfall", "groundwater", "ham", "mm"].any
          fun w => pyIn w (pyLower answer)) then 2 / 10 else 0
    pyRound2 (contextScore * (4 / 10) + answerScore * (3 / 10) + (spec1 + spec2) * (3 / 10))

/-! ### Vector store (`app/vector_store.py`) -/

/-- One stored document, as appended by `VectorStoreManager.add_documents`
(keys `content`, `source`, `source_type`, `metadata`). -/
structure Doc where
  content : String
  source : String
  source_type : String
  metadata : List (String × PyVal)

/-- One hit returned by `search_similar`: the copied document dict plus the
`similarity_score` and `rank` keys added by the loop. -/
structure SimResult where
  doc : Doc
  similarity_score : ℚ
  rank : ℕ

/-- `settings.top_k_results` (environment default `"5"`, `app/config.py`). -/
def top_k_results : ℕ := 5

/-- Inner product of two embedding vectors (`IndexFlatIP` scoring). -/
def innerProd (u v : List ℚ) : ℚ := ((u.zip v).map fun p => p.1 * p.2).sum

/-- The FAISS padding score used when `k` exceeds the number of stored
vectors: the most negative finite 32-bit float (`-FLT_MAX`). -/
def negFltMax : ℚ := -(340282346638528859811704183484516925440 : ℚ)

/-- Non-increasing-score order on FAISS (score, label) pairs. -/
def scoreGe (a b : ℚ × ℤ) : Prop := b.1 ≤ a.1

instance : DecidableRel scoreGe := fun a b => inferInstanceAs (Decidable (b.1 ≤ a.1))

instance : IsTotal (ℚ × ℤ) scoreGe := ⟨fun a b => le_total b.1 a.1⟩

instance : IsTrans (ℚ × ℤ) scoreGe := ⟨fun _ _ _ hab hbc => le_trans hbc hab⟩

/-- Model of `faiss.IndexFlatIP.search` for one query vector: score every
stored vector by inner product, return the `k` best (score, label) pairs in
non-increasing score order, padded with label `-1` and score `-FLT_MAX` when
the index holds fewer than `k` vectors (FAISS pads missing results so the
result array always has `k` entries). -/
def faiss_search (vectors : List (List ℚ)) (qv : List ℚ) (k : ℕ) : List (ℚ × ℤ) :=
  let scored := vectors.enum.map fun p => (innerProd qv p.2, (p.1 : ℤ))
  let best := (List.insertionSort scoreGe scored).take k
  best ++ List.replicate (k - best.length) (negFltMax, -1)

/-- Python list indexing `documents[idx]` including negative-index
wraparound (`documents[-1]` is the last document). Out-of-range access
would raise; it is modelled as `none` and is unreachable from the guarded
call site below. -/
def pyGetDoc (docs : List Doc) (idx : ℤ) : Option Doc :=
  let j : ℤ := if idx < 0 then (docs.length : ℤ) + idx else idx
  if 0 ≤ j then docs.get? j.toNat else none

/-- The result-building loop of `search_similar`: enumerate the FAISS
(score, label) pairs, keep those passing the Python comparison
`idx < len(self.documents)` (the `-1` padding label passes it and selects
the last document), and annotate each kept hit with score and 1-based
enumeration rank. -/
def buildResults (docs : List Doc) : List (ℚ × ℤ) → ℕ → List SimResult
  | [], _ => []
  | (score, idx) :: rest, i =>
    if idx < (docs.length : ℤ) then
      match pyGetDoc docs idx with
      | some d => ⟨d, score, i + 1⟩ :: buildResults docs rest (i + 1)
      | none => buildResults docs rest (i + 1)
    else buildResults docs rest (i + 1)

/-- `VectorStoreManager` state: the FAISS index (`none` until initialized,
otherwise modelled by its list of stored vectors) and the documents list. -/
structure VectorStoreState where
  index : Option (List (List ℚ))
  documents : List Doc

/-- `VectorStoreManager.search_similar`. `embed` is the sentence-transformer
oracle (`encode_texts` applied to the query); `top_k = none` selects the
configured default, as in the source's `if top_k is None` branch. -/
def search_similar (embed : String → List ℚ) (st : VectorStoreState)
    (query : String) (top_k : Option ℕ) : List SimResult :=
  let k := top_k.getD top_k_results
  match st.index with
  | none => []
  | some vecs =>
    if st.documents.length = 0 then []
    else buildResults st.documents (faiss_search vecs (embed query) k) 0

/-- Durable storage as seen by `load_index`: each of the two paths is either
absent (`none`, the `os.path.exists` check fails) or present with a
read/deserialize outcome that may fail. -/
structure DiskState where
  indexFile : Option (Except String (List (List ℚ)))
  docsFile : Option (Except String (List Doc))

/-- `VectorStoreManager.load_index`: the `try` body reads both files only
when both exist; any read/unpickle exception is caught and reported as
`False`. A failed documents read still leaves the already-assigned index in
place, as in the source (the assignment precedes the failing read). -/
def load_index (d : DiskState) (st : VectorStoreState) : Bool × VectorStoreState :=
  match d.indexFile, d.docsFile with
  | some idxR, some docsR =>
    match idxR with
    | .error _ => (false, st)
    | .ok idx =>
      match docsR with
      | .error _ => (false, { st with index := some idx })
      | .ok docs => (true, { index := some idx, documents := docs })
  | _, _ => (false, st)

/-! ### Context building (`QueryProcessor._build_context`) -/

/-- Python `str.replace(pat, rep)` (all non-overlapping occurrences, left to
right), written with a structural fuel so it evaluates by kernel reduction.
The fuel is the input length, which always suffices. -/
def replAux (pat rep : List Char) : ℕ → List Char → List Char
  | _, [] => []
  | 0, l => l
  | fuel + 1, c :: cs =>
    if !pat.isEmpty && pfxAt pat (c :: cs) then
      rep ++ replAux pat rep fuel (cs.drop (pat.length - 1))
    else c :: replAux pat rep fuel cs

/-- Python `s.replace(pat, rep)`. -/
def pyReplace (s pat rep : String) : String := ⟨replAux pat.data rep.data s.data.length s.data⟩

/-- Python `str.strip()` (leading and trailing whitespace removed). -/
def pyStrip (s : String) : String :=
  ⟨((s.data.dropWhile Char.isWhitespace).reverse.dropWhile Char.isWhitespace).reverse⟩

/-- Python `"\n".join(parts)`. -/
def joinParts : List String → String
  | [] => ""
  | p :: ps => ps.foldl (fun acc x => acc ++ "\n" ++ x) p

/-- Python `f"{x:.2f}"`: fixed-point rendering with two decimals (rounding
modelled as round-half-to-even on the exact rational). -/
def fmt2 (q : ℚ) : String :=
  let n := rte (q * 100)
  let a := n.natAbs
  (if n < 0 then "-" else "") ++ toString (a / 100) ++ "." ++
    (if a % 100 < 10 then "0" else "") ++ toString (a % 100)

/-- A bullet line. The repository file stores the bullet in a double-encoded
form, the three characters `â€¢`; the embedding keeps those exact bytes. -/
def bullet (txt : String) : String := "  â€¢ " ++ txt

/-- `state_key`: first record key whose lowercase form is a state alias. -/
def state_key (item : SItem) : Option String :=
  (item.find? fun kv =>
    (["state", "state_name", "state_ut"] : List String).contains (pyLower kv.1)).map (·.1)

/-- `rainfall_key`: first key mentioning rainfall or precipitation. -/
def rainfall_key (item : SItem) : Option String :=
  (item.find? fun kv =>
    pyIn "rainfall" (pyLower kv.1) || pyIn "precipitation" (pyLower kv.1)).map (·.1)

/-- `extraction_key`: first key mentioning extraction or groundwater. -/
def extraction_key (item : SItem) : Option String :=
  (item.find? fun kv =>
    pyIn "extraction" (pyLower kv.1) || pyIn "ground_water" (pyLower kv.1) ||
      pyIn "groundwater" (pyLower kv.1)).map (·.1)

/-- `resources_key`: first key mentioning resources or extractable. -/
def resources_key (item : SItem) : Option String :=
  (item.find? fun kv =>
    pyIn "resources" (pyLower kv.1) || pyIn "extractable" (pyLower kv.1)).map (·.1)

/-- The key list skipped by the residual-field loop
(`[state_key, rainfall_key, extraction_key, resources_key, "_id",
"source_file"]`; a string key never equals a `None` entry of that Python
list, so the absent probes are dropped). -/
def skipKeys (item : SItem) : List String :=
  ([state_key item, rainfall_key item, extraction_key item, resources_key item].filterMap id)
    ++ ["_id", "source_file"]

/-- The texts of the bullet lines contributed for one structured record:
the four labelled fields when their probed keys exist, then every remaining
non-null field whose value is numeric (an int/float, or a string that is
digits after removing `.`, `-` and `,`). -/
def recordTexts (item : SItem) : List String :=
  ((state_key item).map fun k =>
    "State/UT: " ++ pyStr (dictGet item k (.vstr "N/A"))).toList ++
  ((rainfall_key item).map fun k =>
    "Annual Rainfall: " ++ pyStr (dictGet item k (.vstr "N/A")) ++ " mm").toList ++
  ((extraction_key item).map fun k =>
    "Ground Water Extraction: " ++ pyStr (dictGet item k (.vstr "N/A"))).toList ++
  ((resources_key item).map fun k =>
    "Annual Extractable Resources: " ++ pyStr (dictGet item k (.vstr "N/A"))).toList ++
  (item.filterMap fun kv =>
    match kv.2 with
    | .vnone => none
    | v =>
      if (skipKeys item).contains kv.1 || pyStrip (pyStr v) == "" then none
      else
        match v with
        | .vint n => some (kv.1 ++ ": " ++ toString n)
        | .vnum q => some (kv.1 ++ ": " ++ pyStr (.vnum q))
        | .vstr s =>
          if pyIsdigit (pyReplace (pyReplace (pyReplace s "." "") "-" "") "," "") then
            some (kv.1 ++ ": " ++ s)
          else none
        | _ => none)

/-- The parts contributed for one structured record (the body of the loop
over `structured[:5]`): the `Record i+1` header followed by the bullet
lines. -/
def recordBlock (i : ℕ) (item : SItem) : List String :=
  ("\nRecord " ++ toString (i + 1) ++ ":") :: (recordTexts item).map bullet

/-- The parts contributed for one vector hit (the body of the loop over
`unstructured[:3]`); every field used via `.get` is present on a
`search_similar` hit, and the content is truncated to 500 characters. -/
def documentBlock (i : ℕ) (item : SimResult) : List String :=
  [ "\nDocument " ++ toString (i + 1) ++ ":",
    bullet ("Source: " ++ item.doc.source_type),
    bullet ("Content: " ++ pySlice item.doc.content 500 ++ "..."),
    bullet ("Relevance Score: " ++ fmt2 item.similarity_score),
    "---" ]

/-- The `context_parts` list assembled by `_build_context`. -/
def context_parts (structured : List SItem) (unstructured : List SimResult) : List String :=
  (if structured.isEmpty then [] else
    "=== GROUNDWATER DATABASE RECORDS ===" ::
      ((structured.take 5).enum.map fun p => recordBlock p.1 p.2).flatten) ++
  (if unstructured.isEmpty then [] else
    "\n=== ADDITIONAL DOCUMENTS ===" ::
      ((unstructured.take 3).enum.map fun p => documentBlock p.1 p.2).flatten)

/-- `QueryProcessor._build_context` (the `entities` argument is only used
for logging in the source). -/
def build_context (structured : List SItem) (unstructured : List SimResult)
    (_ents : Entities) : String :=
  joinParts (context_parts structured unstructured)

/-! ### Answer generation (`QueryProcessor._generate_answer` and
`_generate_fallback_answer`) -/

/-- The predefined greeting fallback (exact source text, including its
double-encoded emoji bytes). -/
def greetingFallback : String :=
  "Hello! Welcome to INGRES (Integrated Groundwater Resource Information System). \n\nI'm here to help you with information about groundwater resources in India. I can assist you with:\n\nðŸ”¹ Groundwater statistics for different states\nðŸ”¹ Rainfall data and its relationship with groundwater\nðŸ”¹ Water extraction and resource availability information\nðŸ”¹ Using the INGRES system and understanding reports\nðŸ”¹ General groundwater management questions\n\nWhat would you like to know about groundwater resources today?"

/-- The predefined farewell fallback. -/
def farewellFallback : String :=
  "Thank you for using INGRES! If you need any more information about groundwater resources in India, feel free to ask anytime. Take care! ðŸŒŠ"

/-- The predefined help fallback. -/
def helpFallback : String :=
  "I'm the INGRES assistant and I can help you with various groundwater-related queries:\n\nðŸ“Š **Data & Statistics:**\n- State-wise groundwater data\n- Rainfall patterns and trends\n- Water extraction figures\n- Resource availability\n\nðŸ› ï¸ **System Help:**\n- How to use INGRES platform\n- Understanding reports and data\n- Uploading shapefiles\n- Navigation guidance\n\nðŸ“š **Information:**\n- Groundwater management practices\n- Technical terminology\n- Policy and regulations\n\nJust ask me about any specific state, data point, or general groundwater topic!"

/-- `QueryProcessor._generate_fallback_answer`. -/
def fallback_answer (_query context intent : String) : String :=
  if intent == "greeting" then greetingFallback
  else if intent == "farewell" then farewellFallback
  else if intent == "help" then helpFallback
  else if context == "" then
    "I couldn't find specific information to answer your query. Please try rephrasing your question or ask about specific states or groundwater metrics like rainfall, extraction, or resources."
  else if intent == "statistics" && pyIn "state" (pyLower context) then
    "Based on the available data, here are the groundwater statistics for the requested region. The data includes rainfall patterns, groundwater extraction figures, and annual extractable resources. Please refer to the sources for detailed numbers and specific metrics."
  else if intent == "comparison" then
    "I can help you compare groundwater data between different states or regions. The comparison would include rainfall patterns, extraction rates, and available resources. Please specify which states or metrics you'd like to compare."
  else if intent == "explanation" then
    "I can explain various aspects of groundwater management and the INGRES system. This includes how data is collected, what different metrics mean, and how to interpret the results."
  else
    "Based on the available information in our groundwater database, I found some relevant data for your query. The information includes state-wise statistics, rainfall data, and resource availability figures."

/-- The prompt assembled for the Gemini call (per-intent templates of
`_generate_answer`; interpolation points reproduced, surrounding template
whitespace kept close to the source). -/
def prompt_for (intent query context : String) : String :=
  if intent == "greeting" then
    "You are the INGRES (Integrated Groundwater Resource Information System) assistant. \n                \nThe user has greeted you with: \"" ++ query ++ "\"\n\nPlease respond in a friendly, welcoming manner and briefly introduce what you can help with regarding groundwater resources in India. Keep it conversational and helpful."
  else if intent == "farewell" then
    "You are the INGRES assistant. The user said: \"" ++ query ++ "\"\n\nPlease respond politely and encourage them to come back if they need help with groundwater information."
  else if intent == "help" then
    "You are the INGRES assistant. The user is asking for help: \"" ++ query ++ "\"\n\nPlease provide a helpful overview of what you can assist with regarding groundwater resources, statistics, and the INGRES system. Be specific about your capabilities."
  else
    "You are INGRES Assistant, a specialized AI for India's Integrated Groundwater Resource Information System.\n\nIMPORTANT INSTRUCTIONS:\n- You MUST use the provided context data to answer the user's question\n- If the context contains specific numerical data (rainfall, extraction, resources), you MUST include these exact numbers in your response\n- Be specific and data-driven in your answers\n- If context shows data for a specific state, provide that state's information\n- Don't say \"I don't have information\" if the context clearly contains relevant data\n\nCONTEXT DATA PROVIDED:\n" ++ context ++ "\n\nUSER QUERY: " ++ query ++ "\nINTENT: " ++ intent ++ "\n\nBased on the context data above, provide a specific, helpful answer. If you see numerical data in the context, include those exact numbers in your response."

/-- `QueryProcessor._generate_answer`. The Gemini backend is the oracle
`gem` (`none` models an unconfigured `gemini_model`; a configured one maps a
prompt to either a reply or a raised exception). Every failure path inside
this method is caught and routed to the fallback, so the function is total:
a generation fault never escapes to the orchestrator. -/
def generate_answer (gem : Option (String → Except String String))
    (query context intent : String) : String :=
  match gem with
  | none => fallback_answer query context intent
  | some gen =>
    if !(["greeting", "farewell", "help"] : List String).contains intent &&
        pyStrip context == "" then
      fallback_answer query context intent
    else
      match gen (prompt_for intent query context) with
      | .ok t => pyStrip t
      | .error _ => fallback_answer query context intent

/-! ### Orchestrator (`QueryProcessor.process_query`) -/

/-- `app/models.py` `QueryRequest`. -/
structure QueryRequest where
  query : String
  user_id : Option String := none
  session_id : Option String := none

/-- `app/models.py` `QueryResponse` (floats as exact rationals). -/
structure QueryResponse where
  answer : String
  sources : List PyVal
  confidence_score : ℚ
  response_time : ℚ

/-- A `db_manager.query_groundwater_data` invocation (state filter or text
search, the two forms used by `_retrieve_structured_data`). -/
inductive DbCall where
  | byState : String → DbCall
  | byText : String → DbCall

/-- The collaborators `process_query` can reach, each of which may raise.
The pure sub-steps are included as `Except`-valued parameters so that the
spec's fault-injection properties are statable; `pureOracles` below
instantiates them with the real embedded implementations. -/
structure Oracles where
  extract : String → Except String Entities
  classify : String → Except String String
  db : DbCall → Except String (List SItem)
  vsearch : String → Except String (List SimResult)
  gemini : Option (String → Except String String)
  buildCtx : List SItem → List SimResult → Entities → Except String String
  score : String → String → Except String ℚ

/-- The real (non-faulting) instantiation of the pure sub-steps; the
genuinely external collaborators (MongoDB, vector search, Gemini) remain
parameters. -/
def pureOracles (db : DbCall → Except String (List SItem))
    (vs : String → Except String (List SimResult))
    (gem : Option (String → Except String String)) : Oracles where
  extract := fun q => .ok (extract_entities q)
  classify := fun q => .ok (classify_intent q)
  db := db
  vsearch := vs
  gemini := gem
  buildCtx := fun s u e => .ok (build_context s u e)
  score := fun c a => .ok (calculate_confidence c a)

/-- `QueryProcessor._retrieve_structured_data`: query per extracted state;
if that found nothing, query the first vocabulary state contained in the
query (the loop `break`s after the first match whether or not it returned
rows); if still nothing, free-text search; cap at 10. Database exceptions
propagate (there is no `try` in this method). -/
def retrieve_structured_data (o : Oracles) (query : String) (ents : Entities) :
    Except String (List SItem) := do
  let r1 ← ents.states.foldlM (fun acc st => do
    let d ← o.db (.byState st)
    pure (acc ++ d)) ([] : List SItem)
  let r2 ←
    if r1.isEmpty then
      match statesVocab.find? (fun st => pyIn st (pyLower query)) with
      | some st => o.db (.byState st)
      | none => pure []
    else pure r1
  let r3 ← if r2.isEmpty then o.db (.byText query) else pure r2
  pure (r3.take 10)

/-- `QueryProcessor._retrieve_unstructured_data`: the vector search, with
every exception caught and turned into an empty hit list. -/
def retrieve_unstructured_data (o : Oracles) (query : String) : List SimResult :=
  match o.vsearch query with
  | .ok l => l
  | .error _ => []

/-- `QueryProcessor._compile_sources`. -/
def compile_sources (structured : List SItem) (unstructured : List SimResult) :
    List PyVal :=
  (structured.map fun item => PyVal.vdict
    [("type", .vstr "structured"),
     ("source", .vstr "INGRES Database"),
     ("content", .vstr ("Groundwater data for " ++ pyStr (dictGet item "state" (.vstr "Unknown")))),
     ("metadata", .vdict item)]) ++
  (unstructured.map fun r => PyVal.vdict
    [("type", .vstr "unstructured"),
     ("source", .vstr r.doc.source),
     ("source_type", .vstr r.doc.source_type),
     ("relevance_score", .vnum r.similarity_score),
     ("content", .vstr (pySlice r.doc.content 200 ++ "..."))])

/-- The fixed apologetic answer of the orchestrator's `except` branch. -/
def apology : String :=
  "I apologize, but I encountered an error while processing your query. Please try again or rephrase your question."

/-- The `try` body of `QueryProcessor.process_query`. `elapsed` is the
end-to-end wall time measured just before a successful return. -/
def process_query_try (o : Oracles) (req : QueryRequest) (elapsed : ℚ) :
    Except String QueryResponse := do
  let ents ← o.extract req.query
  let intent ← o.classify req.query
  if (["greeting", "farewell", "help"] : List String).contains intent then
    let ans := generate_answer o.gemini req.query "" intent
    pure ⟨ans, [], 1, elapsed⟩
  else
    let structured ← retrieve_structured_data o req.query ents
    let unstructured := retrieve_unstructured_data o req.query
    let ctx ← o.buildCtx structured unstructured ents
    let ans := generate_answer o.gemini req.query ctx intent
    let conf ← o.score ctx ans
    pure ⟨ans, compile_sources structured unstructured, conf, elapsed⟩

/-- `QueryProcessor.process_query`: the `try` body plus the single
orchestrator-boundary `except`, which converts any escaped exception into
the fixed apologetic response with confidence 0.0, no sources and the wall
time measured at the failure (`elapsedFail`). -/
def process_query (o : Oracles) (req : QueryRequest) (elapsed elapsedFail : ℚ) :
    QueryResponse :=
  match process_query_try o req elapsed with
  | .ok r => r
  | .error _ => ⟨apology, [], 0, elapsedFail⟩

/-! ### Auxiliary definitions for the statements -/

/-- A context part is a structured-record header iff it starts `"\nRecord"`. -/
def recHdr (p : String) : Bool := p.data.take 2 == ['\n', 'R']

/-- A context part is a document header iff it starts `"\nDocument"`. -/
def docHdr (p : String) : Bool := p.data.take 2 == ['\n', 'D']

/-- Non-increasing similarity order on search hits. -/
def simGe (a b : SimResult) : Prop := b.similarity_score ≤ a.similarity_score

/-- The record used by the fault-injection scenarios: the Bihar row with
rainfall 1202.46. -/
def biharRecord : SItem := [("state", .vstr "Bihar"), ("rainfall_mm", .vnum (mkRat 120246 100))]

/-- A database oracle holding exactly the Bihar record. -/
def cexDb : DbCall → Except String (List SItem)
  | .byState s => if s == "bihar" then .ok [biharRecord] else .ok []
  | .byText _ => .ok []

/-- A vector-search oracle that raises on every query. -/
def cexVs : String → Except String (List SimResult) := fun _ => .error "faiss crashed"

/-- A vector-search oracle that succeeds with no hits. -/
def okVs : String → Except String (List SimResult) := fun _ => .ok []

/-- A database oracle that raises on every call. -/
def downDb : DbCall → Except String (List SItem) := fun _ => .error "mongo down"

/-- The request used by the fault-injection scenarios. -/
def cexReq : QueryRequest := ⟨"rainfall data for bihar", none, none⟩

section

attribute [local semireducible] Rat.add Rat.mul Rat.inv Rat.sub

/-! ### Confidence scorer: C7 and C10 -/

/-- `rte` never rounds above an integer bound. -/
theorem rte_le_of_le {q : ℚ} {n : ℤ} (h : q ≤ (n : ℚ)) : rte q ≤ n := by
  have hf : ⌊q⌋ ≤ n := by
    have := Int.floor_le_floor (α := ℚ) h
    simpa using this
  have hfq : (⌊q⌋ : ℚ) ≤ q := Int.floor_le q
  unfold rte
  split_ifs with h1 h2 h3
  · exact hf
  · -- fractional part above 1/2: the floor is strictly below `n`
    have hlt : (⌊q⌋ : ℚ) + 1 / 2 < q := by linarith
    have : (⌊q⌋ : ℚ) < (n : ℚ) := by linarith
    have : ⌊q⌋ < n := by exact_mod_cast this
    omega
  · exact hf
  · -- exact tie on an odd floor
    have heq : q - (⌊q⌋ : ℚ) = 1 / 2 := le_antisymm (not_lt.mp h2) (not_lt.mp h1)
    have : (⌊q⌋ : ℚ) < (n : ℚ) := by linarith
    have : ⌊q⌋ < n := by exact_mod_cast this
    omega

/-- `rte` stays nonnegative on nonnegative input. -/
theorem rte_nonneg {q : ℚ} (h : 0 ≤ q) : 0 ≤ rte q := by
  have hf : 0 ≤ ⌊q⌋ := Int.le_floor.mpr (by exact_mod_cast h)
  unfold rte
  split_ifs <;> omega

/-- C7: whenever the context or the answer is the empty string,
`_calculate_confidence` returns exactly the fixed floor 0.1; in particular
`score("", "")` and `score("", answer)` do. -/
theorem calculate_confidence_empty_floor (ctx ans : String) (h : ctx = "" ∨ ans = "") :
    calculate_confidence ctx ans = 1 / 10 := by
  rcases h with h | h <;> subst h <;> simp [calculate_confidence]

/-- Witness for C7 at the two inputs named by the claim. -/
theorem calculate_confidence_empty_floor_witness :
    calculate_confidence "" "" = 1 / 10 ∧ calculate_confidence "" "the answer" = 1 / 10 :=
  ⟨calculate_confidence_empty_floor "" "" (Or.inl rfl),
   calculate_confidence_empty_floor "" "the answer" (Or.inl rfl)⟩

/-- `pyRound2` keeps values inside [0, 0.85]. -/
theorem pyRound2_bounds {x : ℚ} (h0 : 0 ≤ x) (h1 : x ≤ 85 / 100) :
    0 ≤ pyRound2 x ∧ pyRound2 x ≤ 85 / 100 := by
  constructor
  · have h := rte_nonneg (q := x * 100) (by linarith)
    have hq : (0 : ℚ) ≤ ((rte (x * 100) : ℤ) : ℚ) := by exact_mod_cast h
    unfold pyRound2
    linarith
  · have hle : x * 100 ≤ ((85 : ℤ) : ℚ) := by push_cast; linarith
    have h := rte_le_of_le hle
    have hq : ((rte (x * 100) : ℤ) : ℚ) ≤ (85 : ℚ) := by exact_mod_cast h
    unfold pyRound2
    linarith

/-- C10: on the retrieval path (non-empty context and answer) the
confidence is a weighted sum bounded by 0.4 + 0.3 + 0.3·0.5, so it lies in
[0, 0.85] and never reaches 1. -/
theorem calculate_confidence_range (ctx ans : String) (h1 : ctx ≠ "") (h2 : ans ≠ "") :
    0 ≤ calculate_confidence ctx ans ∧ calculate_confidence ctx ans ≤ 85 / 100 := by
  have hcond : (ctx == "" || ans == "") = false := by
    simp [h1, h2]
  rw [calculate_confidence, hcond]
  simp only [Bool.false_eq_true, if_false]
  set c := min ((ctx.length : ℚ) / 1000) 1 with hc
  set a := min ((ans.length : ℚ) / 200) 1 with ha
  set s1 : ℚ := if ans.data.any Char.isDigit then 3 / 10 else 0 with hs1
  set s2 : ℚ := if (["state", "rainfall", "groundwater", "ham", "mm"].any
      fun w => pyIn w (pyLower ans)) then 2 / 10 else 0 with hs2
  have hc0 : 0 ≤ c := le_min (by positivity) (by norm_num)
  have hc1 : c ≤ 1 := min_le_right _ _
  have ha0 : 0 ≤ a := le_min (by positivity) (by norm_num)
  have ha1 : a ≤ 1 := min_le_right _ _
  have hs10 : 0 ≤ s1 ∧ s1 ≤ 3 / 10 := by rw [hs1]; constructor <;> split_ifs <;> norm_num
  have hs20 : 0 ≤ s2 ∧ s2 ≤ 2 / 10 := by rw [hs2]; constructor <;> split_ifs <;> norm_num
  exact pyRound2_bounds (by nlinarith [hs10.1, hs20.1]) (by nlinarith [hs10.2, hs20.2])

/-- Witness for C10 at a concrete non-empty context and answer. -/
theorem calculate_confidence_range_witness :
    0 ≤ calculate_confidence "some context" "some answer" ∧
      calculate_confidence "some context" "some answer" ≤ 85 / 100 :=
  calculate_confidence_range "some context" "some answer" (by decide) (by decide)

/-! ### Intent classifier: C4 and the classification half of C9 -/

/-- C4: the claim's query classifies as statistics, and in general (within
the classifier's precedence order: once no help/greeting/farewell/comparison
pattern fires) a query matching both an explanation pattern and a
data-request pattern classifies as statistics, because the data-request rule
is checked first. -/
theorem classify_intent_statistics_priority :
    classify_intent "what is rainfall in Bihar" = "statistics" ∧
    ∀ q, helpMatch (pyLower q) = false →
      greetingPatterns.any (fun p => pyIn p (pyLower q)) = false →
      farewellPatterns.any (fun p => pyIn p (pyLower q)) = false →
      comparisonPatterns.any (fun p => pyIn p (pyLower q)) = false →
      explanationPatterns.any (fun p => pyIn p (pyLower q)) = true →
      dataRequestPatterns.any (fun p => pyIn p (pyLower q)) = true →
      classify_intent q = "statistics" := by
  refine ⟨by decide, ?_⟩
  intro q h1 h2 h3 h4 _ h6
  simp [classify_intent, h1, h2, h3, h4, h6]

/-- Witness for C4's general part: a query matching an explanation pattern
("what does") and a data-request pattern ("rainfall in"). -/
theorem classify_intent_statistics_priority_witness :
    classify_intent "what does rainfall in assam look like" = "statistics" :=
  classify_intent_statistics_priority.2 "what does rainfall in assam look like"
    (by decide) (by decide) (by decide) (by decide) (by decide) (by decide)

/-! ### Orchestrator short-circuit: C5 and C9 -/

/-- C5: when the classified intent is greeting, farewell or help, the
orchestrator's response is built from the generation call on the raw query
alone — structured retrieval and vector search do not occur in it — with an
empty source list and the fixed confidence 1.0 (≥ 0.9); and `"hello"`
classifies as greeting. -/
theorem process_query_short_circuit :
    (∀ (o : Oracles) (req : QueryRequest) (e ef : ℚ) (ents : Entities) (intent : String),
      o.extract req.query = .ok ents →
      o.classify req.query = .ok intent →
      (["greeting", "farewell", "help"] : List String).contains intent = true →
      process_query o req e ef =
        ⟨generate_answer o.gemini req.query "" intent, [], 1, e⟩) ∧
    classify_intent "hello" = "greeting" ∧ (1 : ℚ) ≥ 9 / 10 := by
  refine ⟨?_, by decide, by norm_num⟩
  intro o req e ef ents intent h1 h2 h3
  have h3' : intent = "greeting" ∨ intent = "farewell" ∨ intent = "help" := by
    simpa using h3
  simp [process_query, process_query_try, h1, h2, h3', Bind.bind, Except.bind,
    Pure.pure, Except.pure]

/-- Witness for C5 on the query `"hello"` with concrete oracles. -/
theorem process_query_short_circuit_witness :
    process_query (pureOracles cexDb okVs none) ⟨"hello", none, none⟩ 3 4 =
      ⟨generate_answer none "hello" "" "greeting", [], 1, 3⟩ :=
  process_query_short_circuit.1 (pureOracles cexDb okVs none) ⟨"hello", none, none⟩ 3 4
    (extract_entities "hello") "greeting" rfl rfl (by decide)

/-- C9: any query whose lowercased text contains `"hi"` (for example via
"delhi" or "himachal pradesh") and matches no help pattern classifies as
greeting, and such a data query takes the short-circuit path: no source is
compiled and the fixed confidence 1.0 is returned, independently of the
database and vector-search collaborators. -/
theorem classify_intent_hi_substring_greeting :
    (∀ q, pyIn "hi" (pyLower q) = true → helpMatch (pyLower q) = false →
      classify_intent q = "greeting") ∧
    classify_intent "what is the rainfall in delhi" = "greeting" ∧
    (∀ db vs gem e ef,
      process_query (pureOracles db vs gem) ⟨"what is the rainfall in delhi", none, none⟩ e ef =
        ⟨generate_answer gem "what is the rainfall in delhi" "" "greeting", [], 1, e⟩) := by
  refine ⟨?_, by decide, ?_⟩
  · intro q h1 h2
    have hg : greetingPatterns.any (fun p => pyIn p (pyLower q)) = true := by
      simp [greetingPatterns, h1]
    simp [classify_intent, h2, hg]
  · intro db vs gem e ef
    have hc : classify_intent "what is the rainfall in delhi" = "greeting" := by decide
    simp [process_query, process_query_try, pureOracles, hc, Bind.bind, Except.bind,
      Pure.pure, Except.pure]

/-- Witness for C9's universally quantified part at a data query mentioning
Himachal Pradesh. -/
theorem classify_intent_hi_substring_greeting_witness :
    classify_intent "groundwater extraction for himachal pradesh" = "greeting" :=
  classify_intent_hi_substring_greeting.1 "groundwater extraction for himachal pradesh"
    (by decide) (by decide)

/-! ### Entity extraction: C6 -/

/-- Counterexample to C6 as stated: in `"rajasthan and bihar"` the term
"rajasthan" first matches at position 0 and "bihar" at position 14, yet the
returned state list is `["bihar", "rajasthan"]` — vocabulary order, not
first-match order. -/
theorem extract_entities_not_first_match_order :
    (extract_entities "rajasthan and bihar").states = ["bihar", "rajasthan"] ∧
    pyFind "rajasthan" "rajasthan and bihar" = some 0 ∧
    pyFind "bihar" "rajasthan and bihar" = some 14 ∧
    ¬ ((extract_entities "rajasthan and bihar").states.Pairwise fun a b =>
        (pyFind a "rajasthan and bihar").getD 0 ≤ (pyFind b "rajasthan and bihar").getD 0) := by
  refine ⟨by decide, by decide, by decide, ?_⟩
  intro h
  have := List.rel_of_pairwise_cons (((by decide : (extract_entities "rajasthan and bihar").states = ["bihar", "rajasthan"]) ▸ h)) (List.mem_singleton.mpr rfl)
  revert this
  decide

/-- C6 amended: each entity list is drawn from its fixed vocabulary by
case-insensitive substring containment against the lowercased query, and is
ordered by the vocabulary's order (a sublist of the vocabulary), not by
first-match position. -/
theorem extract_entities_vocab_order (q : String) :
    List.Sublist (extract_entities q).states statesVocab ∧
    List.Sublist (extract_entities q).metrics metricsVocab ∧
    List.Sublist (extract_entities q).years yearsVocab ∧
    (∀ s, s ∈ (extract_entities q).states ↔ s ∈ statesVocab ∧ pyIn s (pyLower q) = true) ∧
    (∀ m, m ∈ (extract_entities q).metrics ↔ m ∈ metricsVocab ∧ pyIn m (pyLower q) = true) ∧
    (∀ y, y ∈ (extract_entities q).years ↔ y ∈ yearsVocab ∧ pyIn y (pyLower q) = true) := by
  refine ⟨List.filter_sublist _, List.filter_sublist _, List.filter_sublist _, ?_, ?_, ?_⟩ <;>
    · intro x
      simp [extract_entities, List.mem_filter]

/-! ### Vector search ordering: C2 -/

/-- Position bounds and membership for enumerated lists. -/
theorem mem_enumFrom_spec {α : Type} :
    ∀ (l : List α) (n : ℕ) (p : ℕ × α), p ∈ List.enumFrom n l →
      n ≤ p.1 ∧ p.1 < n + l.length ∧ p.2 ∈ l := by
  intro l
  induction l with
  | nil => intro n p h; simp [List.enumFrom] at h
  | cons a t ih =>
    intro n p h
    simp only [List.enumFrom] at h
    rcases List.mem_cons.mp h with rfl | h
    · exact ⟨le_refl n, by simp, by simp⟩
    · obtain ⟨h1, h2, h3⟩ := ih (n + 1) p h
      exact ⟨by omega, by simp; omega, List.mem_cons_of_mem a h3⟩

/-- Every scored pair comes from a stored vector, with an in-range label. -/
theorem mem_faiss_scored {vectors : List (List ℚ)} {qv : List ℚ} {x : ℚ × ℤ}
    (hx : x ∈ vectors.enum.map fun p => (innerProd qv p.2, (p.1 : ℤ))) :
    0 ≤ x.2 ∧ x.2 < (vectors.length : ℤ) ∧ ∃ v ∈ vectors, x.1 = innerProd qv v := by
  rcases List.mem_map.mp hx with ⟨p, hp, rfl⟩
  obtain ⟨_, h2, h3⟩ := mem_enumFrom_spec vectors 0 p (by simpa [List.enum] using hp)
  refine ⟨?_, ?_, ⟨p.2, h3, rfl⟩⟩
  · show (0 : ℤ) ≤ (p.1 : ℤ)
    positivity
  · show (p.1 : ℤ) < (vectors.length : ℤ)
    exact_mod_cast (by omega : p.1 < vectors.length)

/-- The FAISS padding is sorted under `scoreGe`. -/
theorem sorted_replicate_pad (n : ℕ) :
    List.Sorted scoreGe (List.replicate n (negFltMax, (-1 : ℤ))) := by
  induction n with
  | zero => simp
  | succ m ih =>
    rw [List.replicate_succ]
    exact List.Pairwise.cons
      (fun b hb => by rw [List.eq_of_mem_replicate hb]; exact le_refl _) ih

/-- The modelled FAISS search returns its (score, label) rows in
non-increasing score order, provided every true score is at least the
padding sentinel (always the case for finite float scores). -/
theorem faiss_search_sorted {vectors : List (List ℚ)} {qv : List ℚ}
    (hb : ∀ v ∈ vectors, negFltMax ≤ innerProd qv v) (k : ℕ) :
    List.Sorted scoreGe (faiss_search vectors qv k) := by
  simp only [faiss_search]
  apply List.pairwise_append.mpr
  refine ⟨?_, ?_, ?_⟩
  · exact List.Pairwise.sublist (List.take_sublist _ _)
      (List.sorted_insertionSort scoreGe _)
  · exact sorted_replicate_pad _
  · intro a ha b hbmem
    rw [List.eq_of_mem_replicate hbmem]
    have ha' : a ∈ vectors.enum.map fun p => (innerProd qv p.2, (p.1 : ℤ)) :=
      (List.perm_insertionSort scoreGe _).subset ((List.take_sublist _ _).subset ha)
    obtain ⟨_, _, v, hv, hav⟩ := mem_faiss_scored ha'
    show negFltMax ≤ a.1
    rw [hav]
    exact hb v hv

/-- Every label produced by the modelled FAISS search is `-1` or in range. -/
theorem faiss_search_labels {vectors : List (List ℚ)} {qv : List ℚ} {k : ℕ} :
    ∀ x ∈ faiss_search vectors qv k,
      x.2 = -1 ∨ (0 ≤ x.2 ∧ x.2 < (vectors.length : ℤ)) := by
  intro x hx
  simp only [faiss_search] at hx
  rcases List.mem_append.mp hx with hx | hx
  · right
    have hx' : x ∈ vectors.enum.map fun p => (innerProd qv p.2, (p.1 : ℤ)) :=
      (List.perm_insertionSort scoreGe _).subset ((List.take_sublist _ _).subset hx)
    obtain ⟨h1, h2, _⟩ := mem_faiss_scored hx'
    exact ⟨h1, h2⟩
  · left
    rw [List.eq_of_mem_replicate hx]

/-- With a non-empty documents list, Python indexing succeeds on every
label FAISS can produce (`-1` wraps to the last document). -/
theorem pyGetDoc_isSome {docs : List Doc} (hd : docs ≠ []) {idx : ℤ}
    (h : idx = -1 ∨ (0 ≤ idx ∧ idx < (docs.length : ℤ))) :
    ∃ d, pyGetDoc docs idx = some d := by
  have hpos : 0 < docs.length := List.length_pos.mpr hd
  rcases h with rfl | ⟨h1, h2⟩
  · have hj : (if (-1 : ℤ) < 0 then (docs.length : ℤ) + (-1) else (-1)) =
        (docs.length : ℤ) - 1 := by
      rw [if_pos (by norm_num)]; ring
    simp only [pyGetDoc, hj]
    rw [if_pos (by omega : (0 : ℤ) ≤ (docs.length : ℤ) - 1)]
    have hn : ((docs.length : ℤ) - 1).toNat = docs.length - 1 := by omega
    rw [hn]
    exact ⟨_, List.get?_eq_get (by omega)⟩
  · have hj : (if idx < 0 then (docs.length : ℤ) + idx else idx) = idx := by
      rw [if_neg (by omega)]
    simp only [pyGetDoc, hj]
    rw [if_pos h1]
    exact ⟨_, List.get?_eq_get (by omega : idx.toNat < docs.length)⟩

/-- With a non-empty documents list and FAISS-shaped labels, the result
loop keeps every row and copies the scores in order. -/
theorem buildResults_scores (docs : List Doc) (hd : docs ≠ []) :
    ∀ (pairs : List (ℚ × ℤ)),
      (∀ x ∈ pairs, x.2 = -1 ∨ (0 ≤ x.2 ∧ x.2 < (docs.length : ℤ))) →
      ∀ i, (buildResults docs pairs i).map SimResult.similarity_score = pairs.map Prod.fst := by
  intro pairs
  induction pairs with
  | nil => intro _ i; rfl
  | cons x t ih =>
    intro hx i
    obtain ⟨sc, idx⟩ := x
    have hguard : idx < (docs.length : ℤ) := by
      rcases hx (sc, idx) (List.mem_cons_self _ _) with h | ⟨h1, h2⟩
      · have h1 : idx = -1 := h
        omega
      · exact h2
    obtain ⟨d, hdoc⟩ := pyGetDoc_isSome hd (hx (sc, idx) (List.mem_cons_self _ _))
    simp only [buildResults, if_pos hguard, hdoc, List.map_cons]
    rw [ih (fun y hy => hx y (List.mem_cons_of_mem _ hy)) (i + 1)]

/-- Under the same hypotheses the rank fields are the 1-based positions
`i+1, i+2, …`. -/
theorem buildResults_ranks (docs : List Doc) (hd : docs ≠ []) :
    ∀ (pairs : List (ℚ × ℤ)),
      (∀ x ∈ pairs, x.2 = -1 ∨ (0 ≤ x.2 ∧ x.2 < (docs.length : ℤ))) →
      ∀ i, (buildResults docs pairs i).map SimResult.rank = List.range' (i + 1) pairs.length := by
  intro pairs
  induction pairs with
  | nil => intro _ i; rfl
  | cons x t ih =>
    intro hx i
    obtain ⟨sc, idx⟩ := x
    have hguard : idx < (docs.length : ℤ) := by
      rcases hx (sc, idx) (List.mem_cons_self _ _) with h | ⟨h1, h2⟩
      · have h1 : idx = -1 := h
        omega
      · exact h2
    obtain ⟨d, hdoc⟩ := pyGetDoc_isSome hd (hx (sc, idx) (List.mem_cons_self _ _))
    simp only [buildResults, if_pos hguard, hdoc, List.map_cons, List.length_cons]
    rw [ih (fun y hy => hx y (List.mem_cons_of_mem _ hy)) (i + 1)]
    rfl

/-- C2: `search_similar` returns the empty list whenever the index is
uninitialized or the store is empty; otherwise (with the index and the
documents list in sync, and true scores at least the padding sentinel) the
hits come back sorted by non-increasing similarity score and the rank
fields are exactly 1, 2, …, n — the 1-based positions in the returned
list. -/
theorem search_similar_spec :
    (∀ embed st q k, st.index = none ∨ st.documents.length = 0 →
      search_similar embed st q k = []) ∧
    (∀ embed st q k vecs, st.index = some vecs →
      vecs.length = st.documents.length →
      (∀ v ∈ vecs, negFltMax ≤ innerProd (embed q) v) →
      List.Sorted simGe (search_similar embed st q k) ∧
      (search_similar embed st q k).map SimResult.rank =
        List.range' 1 (search_similar embed st q k).length) := by
  constructor
  · intro embed st q k h
    rcases h with h | h
    · simp [search_similar, h]
    · rcases hI : st.index with _ | vecs
      · simp [search_similar, hI]
      · simp [search_similar, hI, h]
  · intro embed st q k vecs hI hlen hb
    by_cases hd : st.documents.length = 0
    · have hnil : search_similar embed st q k = [] := by
        simp [search_similar, hI, hd]
      rw [hnil]
      exact ⟨List.sorted_nil, rfl⟩
    · have hne : st.documents ≠ [] := fun h0 => hd (by simp [h0])
      have hss : search_similar embed st q k =
          buildResults st.documents
            (faiss_search vecs (embed q) (k.getD top_k_results)) 0 := by
        simp [search_similar, hI, hd]
      have hlb : ∀ x ∈ faiss_search vecs (embed q) (k.getD top_k_results),
          x.2 = -1 ∨ (0 ≤ x.2 ∧ x.2 < (st.documents.length : ℤ)) := by
        intro x hx
        rcases faiss_search_labels x hx with h | ⟨h1, h2⟩
        · exact Or.inl h
        · exact Or.inr ⟨h1, by rw [← hlen]; exact h2⟩
      constructor
      · rw [hss]
        have hscores := buildResults_scores st.documents hne _ hlb 0
        have hsorted := @faiss_search_sorted vecs (embed q) hb (k.getD top_k_results)
        have hmap : List.Pairwise (fun a b : ℚ => b ≤ a)
            ((buildResults st.documents
              (faiss_search vecs (embed q) (k.getD top_k_results)) 0).map
                SimResult.similarity_score) := by
          rw [hscores]
          exact hsorted.map Prod.fst (fun a b h => h)
        have hres := List.pairwise_map.mp hmap
        exact hres
      · rw [hss]
        have hranks := buildResults_ranks st.documents hne _ hlb 0
        have hlen2 : (buildResults st.documents
            (faiss_search vecs (embed q) (k.getD top_k_results)) 0).length =
            (faiss_search vecs (embed q) (k.getD top_k_results)).length := by
          have := congrArg List.length hranks
          simpa using this
        rw [hranks, hlen2]

/-- Witness for C2 on a two-vector index queried with `k = 3` (so the FAISS
padding path is exercised), plus the empty-store case. -/
theorem search_similar_spec_witness :
    search_similar (fun _ => [1, 0]) ⟨none, []⟩ "q" none = [] ∧
    (List.Sorted simGe
      (search_similar (fun _ => [1, 0])
        ⟨some [[1, 0], [0, 1]], [⟨"a", "s", "t", []⟩, ⟨"b", "s", "t", []⟩]⟩ "q" (some 3)) ∧
      (search_similar (fun _ => [1, 0])
        ⟨some [[1, 0], [0, 1]], [⟨"a", "s", "t", []⟩, ⟨"b", "s", "t", []⟩]⟩ "q" (some 3)).map
          SimResult.rank =
        List.range' 1
          (search_similar (fun _ => [1, 0])
            ⟨some [[1, 0], [0, 1]], [⟨"a", "s", "t", []⟩, ⟨"b", "s", "t", []⟩]⟩ "q"
              (some 3)).length) :=
  ⟨search_similar_spec.1 (fun _ => [1, 0]) ⟨none, []⟩ "q" none (Or.inl rfl),
   search_similar_spec.2 (fun _ => [1, 0])
     ⟨some [[1, 0], [0, 1]], [⟨"a", "s", "t", []⟩, ⟨"b", "s", "t", []⟩]⟩ "q" (some 3)
     [[1, 0], [0, 1]] rfl rfl (by decide)⟩

/-! ### Index persistence: C8 -/

/-- C8: `load_index` is total (never raises) and returns `True` exactly when
both persisted artifacts exist and deserialize successfully, in which case
both are restored into the store's state; a missing file or a failing read
yields `False`. -/
theorem load_index_spec :
    (∀ d st, (load_index d st).1 = true ↔
      ∃ idx docs, d.indexFile = some (Except.ok idx) ∧ d.docsFile = some (Except.ok docs)) ∧
    (∀ d st idx docs, d.indexFile = some (Except.ok idx) → d.docsFile = some (Except.ok docs) →
      load_index d st = (true, ⟨some idx, docs⟩)) := by
  constructor
  · intro d st
    rcases hI : d.indexFile with _ | iR <;> rcases hD : d.docsFile with _ | dR
    · simp [load_index, hI, hD]
    · simp [load_index, hI, hD]
    · simp [load_index, hI, hD]
    · rcases iR with e | idx <;> rcases dR with e2 | docs <;> simp [load_index, hI, hD]
  · intro d st idx docs h1 h2
    simp [load_index, h1, h2]

/-! ### Context boundedness: C3 -/

/-- Bullet lines are never block headers. -/
theorem recHdr_bullet (t : String) : recHdr (bullet t) = false := rfl

/-- Bullet lines are never document headers. -/
theorem docHdr_bullet (t : String) : docHdr (bullet t) = false := rfl

/-- A record block contains exactly one record header. -/
theorem countP_recordBlock_rec (i : ℕ) (item : SItem) :
    (recordBlock i item).countP recHdr = 1 := by
  rw [recordBlock, List.countP_cons]
  have h0 : ((recordTexts item).map bullet).countP recHdr = 0 :=
    List.countP_eq_zero.mpr (by
      intro p hp
      rcases List.mem_map.mp hp with ⟨t, _, rfl⟩
      simp [recHdr_bullet])
  rw [h0]
  simp [show recHdr ("\nRecord " ++ toString (i + 1) ++ ":") = true from rfl]

/-- A record block contains no document header. -/
theorem countP_recordBlock_doc (i : ℕ) (item : SItem) :
    (recordBlock i item).countP docHdr = 0 := by
  rw [recordBlock, List.countP_cons]
  have h0 : ((recordTexts item).map bullet).countP docHdr = 0 :=
    List.countP_eq_zero.mpr (by
      intro p hp
      rcases List.mem_map.mp hp with ⟨t, _, rfl⟩
      simp [docHdr_bullet])
  rw [h0]
  simp [show docHdr ("\nRecord " ++ toString (i + 1) ++ ":") = false from rfl]

/-- A document block contains exactly one document header. -/
theorem countP_documentBlock_doc (i : ℕ) (item : SimResult) :
    (documentBlock i item).countP docHdr = 1 := rfl

/-- A document block contains no record header. -/
theorem countP_documentBlock_rec (i : ℕ) (item : SimResult) :
    (documentBlock i item).countP recHdr = 0 := rfl

/-- Counting a fixed per-block contribution over an enumerated group of
blocks. -/
theorem countP_flatten_enum {α : Type} (f : ℕ → α → List String) (pr : String → Bool)
    (c : ℕ) (hone : ∀ i a, (f i a).countP pr = c) :
    ∀ (l : List α) (n : ℕ),
      (((List.enumFrom n l).map fun p => f p.1 p.2).flatten).countP pr = c * l.length := by
  intro l
  induction l with
  | nil => intro n; simp
  | cons a t ih =>
    intro n
    simp only [List.enumFrom, List.map_cons, List.flatten_cons, List.countP_append,
      hone, ih (n + 1), List.length_cons, Nat.mul_succ]
    omega

/-- C3: for all input sizes the context holds at most 5 structured record
blocks and at most 3 document blocks, and the content line of every
document block carries the content truncated to 500 characters (line length
18 + min(500, |content|) ≤ 518). -/
theorem build_context_bounded :
    (∀ s u, (context_parts s u).countP recHdr ≤ 5) ∧
    (∀ s u, (context_parts s u).countP docHdr ≤ 3) ∧
    (∀ i item p, (documentBlock i item).get? 2 = some p →
      p.length = 18 + (pySlice item.doc.content 500).length ∧ p.length ≤ 518) := by
  refine ⟨?_, ?_, ?_⟩
  · intro s u
    rw [context_parts, List.countP_append]
    have hA : (if s.isEmpty then ([] : List String) else
        "=== GROUNDWATER DATABASE RECORDS ===" ::
          ((s.take 5).enum.map fun p => recordBlock p.1 p.2).flatten).countP recHdr ≤ 5 := by
      split_ifs
      · simp
      · rw [List.countP_cons, List.enum,
          countP_flatten_enum recordBlock recHdr 1 countP_recordBlock_rec]
        simp only [show recHdr "=== GROUNDWATER DATABASE RECORDS ===" = false from rfl,
          Bool.false_eq_true, if_false, List.length_take, one_mul]
        omega
    have hB : (if u.isEmpty then ([] : List String) else
        "\n=== ADDITIONAL DOCUMENTS ===" ::
          ((u.take 3).enum.map fun p => documentBlock p.1 p.2).flatten).countP recHdr = 0 := by
      split_ifs
      · simp
      · rw [List.countP_cons, List.enum,
          countP_flatten_enum documentBlock recHdr 0 countP_documentBlock_rec]
        simp only [show recHdr "\n=== ADDITIONAL DOCUMENTS ===" = false from rfl,
          Bool.false_eq_true, if_false, Nat.zero_mul]
    omega
  · intro s u
    rw [context_parts, List.countP_append]
    have hA : (if s.isEmpty then ([] : List String) else
        "=== GROUNDWATER DATABASE RECORDS ===" ::
          ((s.take 5).enum.map fun p => recordBlock p.1 p.2).flatten).countP docHdr = 0 := by
      split_ifs
      · simp
      · rw [List.countP_cons, List.enum,
          countP_flatten_enum recordBlock docHdr 0 countP_recordBlock_doc]
        simp only [show docHdr "=== GROUNDWATER DATABASE RECORDS ===" = false from rfl,
          Bool.false_eq_true, if_false, Nat.zero_mul]
    have hB : (if u.isEmpty then ([] : List String) else
        "\n=== ADDITIONAL DOCUMENTS ===" ::
          ((u.take 3).enum.map fun p => documentBlock p.1 p.2).flatten).countP docHdr ≤ 3 := by
      split_ifs
      · simp
      · rw [List.countP_cons, List.enum,
          countP_flatten_enum documentBlock docHdr 1 countP_documentBlock_doc]
        simp only [show docHdr "\n=== ADDITIONAL DOCUMENTS ===" = false from rfl,
          Bool.false_eq_true, if_false, List.length_take, one_mul]
        omega
    omega
  · intro i item p hp
    have hp2 : (documentBlock i item).get? 2 =
        some (bullet ("Content: " ++ pySlice item.doc.content 500 ++ "...")) := rfl
    rw [hp2] at hp
    injection hp with hp
    subst hp
    have hpre : ("  â€¢ " : String).length = 6 := rfl
    have hcon : ("Content: " : String).length = 9 := rfl
    have hdots : ("..." : String).length = 3 := rfl
    have htake : (pySlice item.doc.content 500).length ≤ 500 := by
      rw [show (pySlice item.doc.content 500).length =
        (item.doc.content.data.take 500).length from rfl, List.length_take]
      exact min_le_left _ _
    constructor
    · simp [bullet, String.length_append, hpre, hcon, hdots]
      omega
    · simp [bullet, String.length_append, hpre, hcon, hdots]
      omega

/-- Witness for C3's content-line conjunct on a concrete document. -/
theorem build_context_bounded_witness :
    (documentBlock 0 ⟨⟨"abcde", "src", "pdf", []⟩, 1, 1⟩).get? 2 =
      some (bullet ("Content: " ++ pySlice "abcde" 500 ++ "...")) ∧
    (bullet ("Content: " ++ pySlice "abcde" 500 ++ "...")).length =
      18 + (pySlice "abcde" 500).length ∧
    (bullet ("Content: " ++ pySlice "abcde" 500 ++ "...")).length ≤ 518 :=
  ⟨rfl, build_context_bounded.2.2 0 ⟨⟨"abcde", "src", "pdf", []⟩, 1, 1⟩
    (bullet ("Content: " ++ pySlice "abcde" 500 ++ "...")) rfl⟩

/-- Witness for C8's second conjunct on a concrete one-document store. -/
theorem load_index_spec_witness :
    load_index
      ⟨some (.ok [[1, 0]]), some (.ok [⟨"doc", "s", "csv", []⟩])⟩
      ⟨none, []⟩ =
      (true, ⟨some [[1, 0]], [⟨"doc", "s", "csv", []⟩]⟩) :=
  load_index_spec.2 _ _ _ _ rfl rfl

/-! ### Orchestrator exception containment: C1 -/

/-- A successful `try` body always stamps the success-path wall time. -/
theorem process_query_try_time :
    ∀ (o : Oracles) (req : QueryRequest) (e : ℚ) (r : QueryResponse),
      process_query_try o req e = .ok r → r.response_time = e := by
  intro o req e r h
  unfold process_query_try at h
  simp only [Bind.bind, Except.bind, Pure.pure, Except.pure] at h
  rcases hx : o.extract req.query with m | ents <;> rw [hx] at h <;> dsimp only at h
  · cases h
  · rcases hc : o.classify req.query with m | intent <;> rw [hc] at h <;> dsimp only at h
    · cases h
    · by_cases hi : (["greeting", "farewell", "help"] : List String).contains intent = true
      · rw [if_pos hi] at h
        cases h
        rfl
      · rw [if_neg hi] at h
        rcases hr : retrieve_structured_data o req.query ents with m | sl <;>
          rw [hr] at h <;> dsimp only at h
        · cases h
        · rcases hb : o.buildCtx sl (retrieve_unstructured_data o req.query) ents
            with m | ctx <;> rw [hb] at h <;> dsimp only at h
          · cases h
          · rcases hs : o.score ctx (generate_answer o.gemini req.query ctx intent)
              with m | conf <;> rw [hs] at h <;> dsimp only at h
            · cases h
            · cases h
              rfl

set_option maxRecDepth 16384 in
/-- Counterexample to C1 as stated: injecting a fault into the vector-search
sub-step alone (a raising `search_similar`, all other collaborators healthy,
Gemini unconfigured) yields a normal well-formed response — the answer is
not the fixed apologetic text and the confidence is not 0.0 — because
`_retrieve_unstructured_data` catches that exception itself and proceeds
with an empty hit list. -/
theorem process_query_vector_fault_counterexample :
    (process_query (pureOracles cexDb cexVs none) cexReq 1 2).answer ≠ apology ∧
    (process_query (pureOracles cexDb cexVs none) cexReq 1 2).confidence_score ≠ 0 ∧
    (process_query (pureOracles cexDb cexVs none) cexReq 1 2).response_time = 1 := by
  refine ⟨by decide, by decide, by decide⟩

/-- C1 amended: `process_query` never propagates an exception, and a fault
raised by entity extraction, intent classification, structured retrieval,
context building or confidence scoring is caught at the orchestrator
boundary and converted into the fixed apologetic response with confidence
0.0, an empty source list and the failure-path wall time; the wall time is
populated in every outcome. (Vector-search and generation faults are
absorbed inside their own sub-steps and do not produce the apologetic
response — see the counterexample.) -/
theorem process_query_exception_containment :
    (∀ (o : Oracles) (req : QueryRequest) (e ef : ℚ) (msg : String),
      o.extract req.query = .error msg →
      process_query o req e ef = ⟨apology, [], 0, ef⟩) ∧
    (∀ (o : Oracles) (req : QueryRequest) (e ef : ℚ) (ents : Entities) (msg : String),
      o.extract req.query = .ok ents →
      o.classify req.query = .error msg →
      process_query o req e ef = ⟨apology, [], 0, ef⟩) ∧
    (∀ (o : Oracles) (req : QueryRequest) (e ef : ℚ) (ents : Entities)
        (intent msg : String),
      o.extract req.query = .ok ents →
      o.classify req.query = .ok intent →
      (["greeting", "farewell", "help"] : List String).contains intent = false →
      retrieve_structured_data o req.query ents = .error msg →
      process_query o req e ef = ⟨apology, [], 0, ef⟩) ∧
    (∀ (o : Oracles) (req : QueryRequest) (e ef : ℚ) (ents : Entities)
        (intent msg : String) (sl : List SItem),
      o.extract req.query = .ok ents →
      o.classify req.query = .ok intent →
      (["greeting", "farewell", "help"] : List String).contains intent = false →
      retrieve_structured_data o req.query ents = .ok sl →
      o.buildCtx sl (retrieve_unstructured_data o req.query) ents = .error msg →
      process_query o req e ef = ⟨apology, [], 0, ef⟩) ∧
    (∀ (o : Oracles) (req : QueryRequest) (e ef : ℚ) (ents : Entities)
        (intent msg : String) (sl : List SItem) (ctx : String),
      o.extract req.query = .ok ents →
      o.classify req.query = .ok intent →
      (["greeting", "farewell", "help"] : List String).contains intent = false →
      retrieve_structured_data o req.query ents = .ok sl →
      o.buildCtx sl (retrieve_unstructured_data o req.query) ents = .ok ctx →
      o.score ctx (generate_answer o.gemini req.query ctx intent) = .error msg →
      process_query o req e ef = ⟨apology, [], 0, ef⟩) ∧
    (∀ (o : Oracles) (req : QueryRequest) (e ef : ℚ),
      (process_query o req e ef).response_time = e ∨
      (process_query o req e ef).response_time = ef) := by
  refine ⟨?_, ?_, ?_, ?_, ?_, ?_⟩
  · intro o req e ef msg h1
    simp [process_query, process_query_try, h1, Bind.bind, Except.bind]
  · intro o req e ef ents msg h1 h2
    simp [process_query, process_query_try, h1, h2, Bind.bind, Except.bind]
  · intro o req e ef ents intent msg h1 h2 h3 h4
    have h3' : ¬(intent = "greeting" ∨ intent = "farewell" ∨ intent = "help") := by
      simpa using h3
    simp [process_query, process_query_try, h1, h2, h3', h4, Bind.bind, Except.bind]
  · intro o req e ef ents intent msg sl h1 h2 h3 h4 h5
    have h3' : ¬(intent = "greeting" ∨ intent = "farewell" ∨ intent = "help") := by
      simpa using h3
    simp [process_query, process_query_try, h1, h2, h3', h4, h5, Bind.bind, Except.bind]
  · intro o req e ef ents intent msg sl ctx h1 h2 h3 h4 h5 h6
    have h3' : ¬(intent = "greeting" ∨ intent = "farewell" ∨ intent = "help") := by
      simpa using h3
    simp [process_query, process_query_try, h1, h2, h3', h4, h5, h6, Bind.bind, Except.bind]
  · intro o req e ef
    unfold process_query
    rcases hpt : process_query_try o req e with m | r
    · right; rfl
    · left
      exact process_query_try_time o req e r hpt

/-- Witness for C1's amended theorem: each containable fault site exercised
with concrete oracles on a concrete statistics query, plus the always-
populated wall time. -/
theorem process_query_exception_containment_witness :
    process_query { pureOracles cexDb okVs none with extract := fun _ => .error "boom" }
      cexReq 1 2 = ⟨apology, [], 0, 2⟩ ∧
    process_query { pureOracles cexDb okVs none with classify := fun _ => .error "boom" }
      cexReq 1 2 = ⟨apology, [], 0, 2⟩ ∧
    process_query (pureOracles downDb okVs none) cexReq 1 2 = ⟨apology, [], 0, 2⟩ ∧
    process_query { pureOracles cexDb okVs none with buildCtx := fun _ _ _ => .error "boom" }
      cexReq 1 2 = ⟨apology, [], 0, 2⟩ ∧
    process_query { pureOracles cexDb okVs none with score := fun _ _ => .error "boom" }
      cexReq 1 2 = ⟨apology, [], 0, 2⟩ ∧
    ((process_query (pureOracles cexDb okVs none) cexReq 1 2).response_time = 1 ∨
      (process_query (pureOracles cexDb okVs none) cexReq 1 2).response_time = 2) :=
  ⟨process_query_exception_containment.1 _ cexReq 1 2 "boom" rfl,
   process_query_exception_containment.2.1 _ cexReq 1 2
     (extract_entities "rainfall data for bihar") "boom" rfl rfl,
   process_query_exception_containment.2.2.1 _ cexReq 1 2
     (extract_entities "rainfall data for bihar") "statistics" "mongo down"
     rfl rfl (by decide) rfl,
   process_query_exception_containment.2.2.2.1 _ cexReq 1 2
     (extract_entities "rainfall data for bihar") "statistics" "boom" [biharRecord]
     rfl rfl (by decide) rfl rfl,
   process_query_exception_containment.2.2.2.2.1 _ cexReq 1 2
     (extract_entities "rainfall data for bihar") "statistics" "boom" [biharRecord]
     (build_context [biharRecord]
       (retrieve_unstructured_data { pureOracles cexDb okVs none with
         score := fun _ _ => .error "boom" } cexReq.query)
       (extract_entities "rainfall data for bihar"))
     rfl rfl (by decide) rfl rfl rfl,
   process_query_exception_containment.2.2.2.2.2 (pureOracles cexDb okVs none) cexReq 1 2⟩

end

end Ingres
